import Mathlib

/-!
Verification of the navidrome jukebox playback subsystem
(`core/playback/device_speaker.go`, `core/playback/mpv` bootstrap code).

Shallow embedding conventions:
* Go machine integers are modelled as `Int`/`Nat`; Go's `int(x)` cast of a
  float truncates toward zero, modelled by `goTrunc` on exact rationals
  (`float32`/`float64` values are modelled as `ℚ`; all concrete inputs used
  below are dyadic with few significand bits, where the IEEE computation in
  the source is exact, so model and code agree there).
* Effectful mpv IPC calls are modelled explicitly: mutating commands
  (`Set`/`Call` on the connection) are recorded in an action trace, and the
  results of fallible reads/writes that the code inspects are passed in as
  oracle arguments (`Except`/`Option` values).
* `queue.go` is not part of the sources; the `Queue` operations it provides
  are modelled from the spec (each such definition is marked
  `Modelled from the spec:` in its doc comment).
-/

namespace Spec2Proof

/-- Go `int(x)` conversion of a floating value truncates toward zero;
`Int.div` is Lean's truncating division. -/
def goTrunc (q : ℚ) : Int := Int.tdiv q.num (q.den : Int)

/-- A track reference: opaque id plus resolved path
(the parts of `model.MediaFile` this subsystem reads). -/
structure MediaFile where
  id : String
  path : String
deriving DecidableEq, Repr

/-- A scalar value travelling over the mpv IPC connection
(property values are bool / float64 / other). -/
inductive MpvValue where
  | bool (b : Bool)
  | num (q : ℚ)
  | str (s : String)
deriving DecidableEq, Repr

/-- An argument of an mpv IPC command. -/
inductive MpvArg where
  | int (i : Int)
  | str (s : String)
  | bool (b : Bool)
deriving DecidableEq, Repr

/-- A mutating mpv IPC request issued by the device:
`MpvConn.Set(property, value)` or `MpvConn.Call(command, args...)`. -/
inductive MpvAction where
  | set (prop : String) (value : MpvArg)
  | call (cmd : String) (args : List MpvArg)
deriving DecidableEq, Repr

/-- The play queue: ordered track list plus current-index cursor.
Modelled from the spec: `queue.go` is not under the sources; §3 gives the
invariant `index ∈ [0, len) or index == -1 iff empty` and §4.4 the
operation contract. -/
structure Queue where
  items : List MediaFile
  index : Int
deriving DecidableEq, Repr

/-- Modelled from the spec: a fresh queue is empty with the `-1` cursor
sentinel (§3 invariant: `index == -1` iff empty). -/
def Queue.new : Queue := { items := [], index := -1 }

/-- Go `len` of the queue, as `int`. -/
def Queue.size (q : Queue) : Int := (q.items.length : Int)

def Queue.isEmpty (q : Queue) : Bool := q.items.length == 0

/-- Modelled from the spec: `Add(tracks)` appends in order (§4.4); when items
arrive in an empty queue the cursor leaves the `-1` sentinel for the start,
as the §3 invariant and `Set`'s index-reset behaviour (§4.5) require. -/
def Queue.add (q : Queue) (ts : List MediaFile) : Queue :=
  let items := q.items ++ ts
  { items := items
    index := if q.index = -1 ∧ items ≠ [] then 0 else q.index }

/-- Modelled from the spec: `Clear()` empties the queue, restoring the
empty-queue sentinel (§3, §4.4). -/
def Queue.clear : Queue := { items := [], index := -1 }

/-- Modelled from the spec: `SetIndex(i)` sets the cursor. The device's
switch path calls `SetIndex` and then checks `Current() == nil`, so
`SetIndex` must accept out-of-range values unclamped. -/
def Queue.setIndex (q : Queue) (i : Int) : Queue := { q with index := i }

/-- Modelled from the spec: `Current() -> track|none` (§4.4) — the track at
the cursor, or none when the cursor designates no track. -/
def Queue.current (q : Queue) : Option MediaFile :=
  if 0 ≤ q.index then q.items[q.index.toNat]? else none

/-- Modelled from the spec: `Remove(i)` removes the element at `i`
preserving the order of the rest (§4.4, §8.5); the cursor is kept inside
the §3 invariant (the exact cursor policy after removal is not specified). -/
def Queue.remove (q : Queue) (i : Nat) : Queue :=
  let items := q.items.eraseIdx i
  { items := items
    index :=
      if items = [] then -1
      else if (items.length : Int) ≤ q.index then (items.length : Int) - 1
      else q.index }

/-- Marker for an opened mpv IPC connection (`mpvipc.Connection`). -/
structure Conn where
  socketName : String
deriving DecidableEq, Repr

/-- Device state: the fields of `SpeakerPlaybackDevice` the transport
commands read or write. `mpvConn` is an `Option` because the constructor
stores whatever `OpenMpvAndConnection` returned, error or not. -/
structure SpeakerPlaybackDevice where
  mpvConn : Option Conn
  name : String
  deviceName : String
  playbackQueue : Queue
  gain : ℚ
deriving DecidableEq, Repr

/-- Result of one transport command: the updated device, the trace of
mutating IPC requests it issued, and the error value it returned. -/
structure OpResult where
  device : SpeakerPlaybackDevice
  actions : List MpvAction
  err : Option String
deriving DecidableEq, Repr

/-- `switchActiveTrackByIndex`: set the queue cursor, fetch the current
track; a missing track is the "could not get current track" error; else
issue `loadfile <path> replace 0 start=10`. The `offset` parameter is
unused by the source. -/
def SpeakerPlaybackDevice.switchActiveTrackByIndex (pd : SpeakerPlaybackDevice)
    (index : Int) (offset : Int) : OpResult :=
  let pd1 := { pd with playbackQueue := pd.playbackQueue.setIndex index }
  match pd1.playbackQueue.current with
  | none => { device := pd1, actions := [], err := some ("could not get current track") }
  | some t =>
      { device := pd1
        actions := [.call ("loadfile") [.str t.path, .str ("replace"), .int 0, .str ("start=10")]]
        err := none }

/-- `Skip(index, offset)`: seek when `index` is the current index, otherwise
switch tracks, discarding `switchActiveTrackByIndex`'s return value; always
returns a nil error. -/
def SpeakerPlaybackDevice.skip (pd : SpeakerPlaybackDevice)
    (index : Int) (offset : Int) : OpResult :=
  if index ≠ pd.playbackQueue.index then
    let r := pd.switchActiveTrackByIndex index offset
    { device := r.device, actions := r.actions, err := none }
  else
    { device := pd, actions := [.call ("seek") [.int offset]], err := none }

/-- The resolution loop inside `Add`: `GetMediaFile` each id in order,
returning the first error; on success the collected tracks in input order. -/
def resolveAll (catalog : String → Except String MediaFile) :
    List String → Except String (List MediaFile)
  | [] => .ok []
  | id :: rest =>
      match catalog id with
      | .error e => .error e
      | .ok mf =>
          match resolveAll catalog rest with
          | .error e => .error e
          | .ok tl => .ok (mf :: tl)

/-- `Add(ids)`: early nil return on an empty batch; otherwise resolve every
id via the catalog (first error aborts, nothing appended) and append the
batch to the queue. -/
def SpeakerPlaybackDevice.add (catalog : String → Except String MediaFile)
    (pd : SpeakerPlaybackDevice) (ids : List String) : OpResult :=
  if ids.length < 1 then { device := pd, actions := [], err := none }
  else
    match resolveAll catalog ids with
    | .error e => { device := pd, actions := [], err := some e }
    | .ok items =>
        { device := { pd with playbackQueue := pd.playbackQueue.add items }
          actions := [], err := none }

/-- `Stop`: set `pause=true`; a failure of the IPC set is only logged, the
command returns a nil error. -/
def SpeakerPlaybackDevice.stop (pd : SpeakerPlaybackDevice) : OpResult :=
  { device := pd, actions := [.set ("pause") (.bool true)], err := none }

/-- `Clear`: `Stop` then empty the queue; returns a nil error. -/
def SpeakerPlaybackDevice.clear (pd : SpeakerPlaybackDevice) : OpResult :=
  let s := pd.stop
  { device := { s.device with playbackQueue := Queue.clear }
    actions := s.actions, err := none }

/-- `Set(ids)`: `Clear`, propagate its error if any, else `Add`. -/
def SpeakerPlaybackDevice.set (catalog : String → Except String MediaFile)
    (pd : SpeakerPlaybackDevice) (ids : List String) : OpResult :=
  let c := pd.clear
  match c.err with
  | some e => { device := c.device, actions := c.actions, err := some e }
  | none =>
      let a := SpeakerPlaybackDevice.add catalog c.device ids
      { device := a.device, actions := c.actions ++ a.actions, err := a.err }

/-- `isPlaying`: read the `pause` property (result passed in as `pauseGet`);
any error or non-bool value counts as not playing. -/
def SpeakerPlaybackDevice.isPlaying (pd : SpeakerPlaybackDevice)
    (pauseGet : Except String MpvValue) : Bool :=
  match pauseGet with
  | .error _ => false
  | .ok (.bool b) => !b
  | .ok _ => false

/-- The range-guarded tail of `Remove`: in-range indices delegate to
`Queue.Remove`; out-of-range indices are only logged, and either way the
command returns a nil error. -/
def SpeakerPlaybackDevice.removeTail (pd : SpeakerPlaybackDevice)
    (acts : List MpvAction) (index : Int) : OpResult :=
  if index > -1 ∧ index < pd.playbackQueue.size then
    { device := { pd with playbackQueue := pd.playbackQueue.remove index.toNat }
      actions := acts, err := none }
  else
    { device := pd, actions := acts, err := none }

/-- `Remove(index)`: stop first when removing the playing index (an error
from `Stop` would be returned, but `Stop` never errors), then the range
guard. -/
def SpeakerPlaybackDevice.remove (pd : SpeakerPlaybackDevice) (index : Int)
    (pauseGet : Except String MpvValue) : OpResult :=
  if pd.isPlaying pauseGet ∧ pd.playbackQueue.index = index then
    let s := pd.stop
    match s.err with
    | some e => { device := s.device, actions := s.actions, err := some e }
    | none => s.device.removeTail s.actions index
  else
    pd.removeTail [] index

/-- `SetGain(gain)`: `vol := int(gain * 100)` (truncation), set the `volume`
property — `setVolumeErr` is the result of that IPC set, which is only
logged — and unconditionally store the gain; returns a nil error. -/
def SpeakerPlaybackDevice.setGain (pd : SpeakerPlaybackDevice) (gain : ℚ)
    (setVolumeErr : Option String) : OpResult :=
  let vol : Int := goTrunc (gain * 100)
  { device := { pd with gain := gain }
    actions := [.set ("volume") (.int vol)]
    err := none }

/-! ## Position query (`SpeakerPlaybackDevice.Position`) -/

/-- The transient error string the position loop retries on. -/
def unavailableMsg : String := "mpv error: property unavailable"

/-- The retry loop of `Position`. `results k` is what the `(k+1)`-th
`Get("time-pos")` returns; at loop entry `retryCount` queries have already
failed. Returns the reported position and the list of backoff sleeps (in
milliseconds, each equal to the retry count at the time of the sleep). A
transient "property unavailable" error bumps the retry counter, gives up
with 0 once it exceeds 5, and otherwise sleeps and retries; any other
error yields 0; a non-float value yields 0; a float is truncated to int. -/
def positionLoop (results : Nat → Except String MpvValue)
    (retryCount : Nat) : Int × List Nat :=
  match results retryCount with
  | .error e =>
      if e = unavailableMsg then
        if h : 5 < retryCount + 1 then (0, [])
        else
          let r := positionLoop results (retryCount + 1)
          (r.1, (retryCount + 1) :: r.2)
      else (0, [])
  | .ok (.num q) => (goTrunc q, [])
  | .ok _ => (0, [])
termination_by 5 - retryCount
decreasing_by omega

/-- `Position()`: run the retry loop starting with a zero retry count. -/
def position (results : Nat → Except String MpvValue) : Int × List Nat :=
  positionLoop results 0

/-! ## Player-binary resolution (`mpvCommand` / `mpvOnce`) -/

/-- Outcome of an `exec.LookPath` call, distinguishing the
"ambiguous relative path" condition (`exec.ErrDot`). -/
inductive LookErr where
  | errDot
  | notFound (s : String)
deriving DecidableEq, Repr

def LookErr.message : LookErr → String
  | .errDot => "exec: cannot run executable found relative to current directory"
  | .notFound s => s

/-- The process environment the lookup reads: the configured
`conf.Server.MPVPath` and the behaviour of `exec.LookPath`. -/
structure MpvLookupEnv where
  mpvPathConf : String
  lookPath : String → String × Option LookErr

/-- The package-level `mpvOnce`/`mpvPath`/`mpvErr` state guarding the
one-time lookup. -/
structure MpvOnceState where
  onceDone : Bool
  mpvPath : String
  mpvErr : Option LookErr
deriving DecidableEq, Repr

/-- The zero value of the package-level state. -/
def initialMpvOnceState : MpvOnceState :=
  { onceDone := false, mpvPath := "", mpvErr := none }

/-- The body of the `mpvOnce.Do` closure: explicit configured path when
set; otherwise look up the bare name `mpv`, retrying as `./mpv` on the
`exec.ErrDot` condition. -/
def mpvLookup (env : MpvLookupEnv) : String × Option LookErr :=
  if env.mpvPathConf ≠ "" then env.lookPath env.mpvPathConf
  else
    let r := env.lookPath ("mpv")
    if r.2 = some .errDot then env.lookPath ("./mpv") else r

/-- `mpvCommand()`: run the lookup under the once guard and return the
cached `(mpvPath, mpvErr)` pair together with the new guard state. -/
def mpvCommand (env : MpvLookupEnv) (st : MpvOnceState) :
    (String × Option LookErr) × MpvOnceState :=
  if st.onceDone then ((st.mpvPath, st.mpvErr), st)
  else
    let r := mpvLookup env
    (r, { onceDone := true, mpvPath := r.1, mpvErr := r.2 })

/-! ## Bootstrap (`waitForSocket`, `OpenMpvAndConnection`,
`NewSpeakerPlaybackDevice`) -/

/-- The error `waitForSocket` returns when the deadline passes
(`fmt.Errorf("timeout reached: %s", timeout)` with the 3s timeout). -/
def timeoutMsg : String := "timeout reached: 3s"

/-- The polling loop of `waitForSocket`. `statOk k` is whether the `k`-th
`os.Stat` sees the socket file (existing and not a directory); `pollsLeft`
is how many more polls fit before the deadline (3s at a 100ms pause). -/
def waitForSocketGo (statOk : Nat → Bool) (pollsLeft : Nat) (k : Nat) :
    Option String :=
  if statOk k then none
  else
    match pollsLeft with
    | 0 => some timeoutMsg
    | n + 1 => waitForSocketGo statOk n (k + 1)

/-- `waitForSocket(path, 3s, 100ms)`: poll from the start until the socket
shows up or the deadline passes. -/
def waitForSocket (statOk : Nat → Bool) (maxPolls : Nat) : Option String :=
  waitForSocketGo statOk maxPolls 0

/-- The environment one `OpenMpvAndConnection` call runs in: the (cached)
`mpvCommand()` result, whether starting the subprocess failed, the socket
poll oracle and poll budget, and whether `conn.Open()` failed. -/
structure BootstrapEnv where
  mpvResolve : String × Option LookErr
  startErr : Option String
  statOk : Nat → Bool
  maxPolls : Nat
  connOpenErr : Option String

/-- `OpenMpvAndConnection`: fail on binary-resolution failure, then on
subprocess-start failure, then on socket-wait failure, then on
connection-open failure; otherwise return the opened connection. (The
socket name comes from `socketName("mpv-ctrl-", ".socket")`, a helper not
in the sources; the name itself is irrelevant here.) -/
def OpenMpvAndConnection (env : BootstrapEnv) (deviceName : String) :
    Except String Conn :=
  match env.mpvResolve.2 with
  | some e => .error e.message
  | none =>
      match env.startErr with
      | some e => .error e
      | none =>
          match waitForSocket env.statOk env.maxPolls with
          | some e => .error e
          | none =>
              match env.connOpenErr with
              | some e => .error e
              | none => .ok { socketName := "mpv-ctrl-.socket" }

/-- `NewSpeakerPlaybackDevice`: call `OpenMpvAndConnection`, discard its
error (`_ = err` in the source), and return a device holding whatever
connection came back (possibly nil), gain 1.0 and a fresh queue. The
constructor has no failure path. -/
def NewSpeakerPlaybackDevice (env : BootstrapEnv)
    (name deviceName : String) : SpeakerPlaybackDevice :=
  let conn := OpenMpvAndConnection env deviceName
  { mpvConn := conn.toOption
    name := name
    deviceName := deviceName
    playbackQueue := Queue.new
    gain := 1 }

/-! ## Helper lemmas and sample data -/

/-- For a non-negative rational, Go truncation agrees with the floor. -/
theorem goTrunc_eq_floor_of_nonneg (q : ℚ) (h : 0 ≤ q) : goTrunc q = ⌊q⌋ := by
  rw [Rat.floor_def, goTrunc,
    Int.tdiv_eq_ediv (Rat.num_nonneg.mpr h) (Int.ofNat_nonneg _)]

/-- Resolution preserves batch length. -/
theorem resolveAll_ok_length (catalog : String → Except String MediaFile) :
    ∀ (ids : List String) (ts : List MediaFile),
      resolveAll catalog ids = .ok ts → ts.length = ids.length := by
  intro ids
  induction ids with
  | nil => intro ts h; simp [resolveAll] at h; simp [← h]
  | cons i rest ih =>
      intro ts h
      simp only [resolveAll] at h
      cases hc : catalog i with
      | error e => rw [hc] at h; exact absurd h (by simp)
      | ok mf =>
          rw [hc] at h
          cases hr : resolveAll catalog rest with
          | error e => rw [hr] at h; exact absurd h (by simp)
          | ok tl =>
              rw [hr] at h
              cases h
              simpa using ih tl hr

def trackA : MediaFile := { id := "a", path := "/music/a.mp3" }

def trackB : MediaFile := { id := "b", path := "/music/b.mp3" }

def trackC : MediaFile := { id := "c", path := "/music/c.mp3" }

/-- A device whose queue holds three tracks with the cursor at the start. -/
def sampleDevice : SpeakerPlaybackDevice :=
  { mpvConn := some { socketName := "mpv-ctrl-.socket" }
    name := "jukebox"
    deviceName := "hw0"
    playbackQueue := { items := [trackA, trackB, trackC], index := 0 }
    gain := 1 }

/-- A sample catalog resolving the three known ids. -/
def sampleCatalog : String → Except String MediaFile := fun id =>
  if id = "a" then .ok trackA
  else if id = "b" then .ok trackB
  else if id = "c" then .ok trackC
  else .error ("data not found")

/-! ## Claim theorems -/

/-- C5: `Skip(index, offset)` with `index` equal to the queue's current
index issues only a seek-by-offset command (no file load), and the device —
in particular the queue's order, length and current index — is unchanged. -/
theorem skip_same_index_seeks_only (pd : SpeakerPlaybackDevice) (offset : Int) :
    pd.skip pd.playbackQueue.index offset
      = { device := pd, actions := [.call ("seek") [.int offset]], err := none } := by
  simp [SpeakerPlaybackDevice.skip]

/-- C4: `Skip(index, offset)` with `index` different from the current index
and designating a track updates the current index to `index` and issues one
`loadfile` for that track's path with the fixed `start=10` startup offset;
the `offset` argument does not influence the result at all. -/
theorem skip_switch_updates_index_and_loads (pd : SpeakerPlaybackDevice)
    (index offset : Int) (t : MediaFile)
    (hne : index ≠ pd.playbackQueue.index) (h0 : 0 ≤ index)
    (ht : pd.playbackQueue.items[index.toNat]? = some t) :
    (pd.skip index offset).device.playbackQueue.index = index ∧
    (pd.skip index offset).actions
      = [.call ("loadfile")
          [.str t.path, .str ("replace"), .int 0, .str ("start=10")]] ∧
    (pd.skip index offset).err = none ∧
    pd.skip index offset = pd.skip index 0 := by
  simp [SpeakerPlaybackDevice.skip, SpeakerPlaybackDevice.switchActiveTrackByIndex,
    Queue.setIndex, Queue.current, hne, h0, ht]

/-- C4 witness: skipping from index 0 to index 1 of the sample device. -/
theorem skip_switch_updates_index_and_loads_witness :
    (sampleDevice.skip 1 7).device.playbackQueue.index = 1 ∧
    (sampleDevice.skip 1 7).actions
      = [.call ("loadfile")
          [.str trackB.path, .str ("replace"), .int 0, .str ("start=10")]] ∧
    (sampleDevice.skip 1 7).err = none ∧
    sampleDevice.skip 1 7 = sampleDevice.skip 1 0 :=
  skip_switch_updates_index_and_loads sampleDevice 1 7 trackB
    (by decide) (by decide) rfl

/-- C10: `Skip` returns a nil error for every index and offset; in
particular the "could not get current track" error that
`switchActiveTrackByIndex` produces when the new cursor designates no
track is discarded and never reaches the caller. -/
theorem skip_always_returns_nil_error (pd : SpeakerPlaybackDevice)
    (index offset : Int) :
    (pd.skip index offset).err = none ∧
    ((pd.playbackQueue.setIndex index).current = none →
      (pd.switchActiveTrackByIndex index offset).err
        = some ("could not get current track")) := by
  constructor
  · unfold SpeakerPlaybackDevice.skip
    split <;> rfl
  · intro h
    simp [SpeakerPlaybackDevice.switchActiveTrackByIndex, h]

/-- C10 witness: skipping to the out-of-range index 7 of the sample device
returns a nil error even though the switch path produced an error. -/
theorem skip_always_returns_nil_error_witness :
    (sampleDevice.skip 7 0).err = none ∧
    (sampleDevice.switchActiveTrackByIndex 7 0).err
      = some ("could not get current track") :=
  ⟨(skip_always_returns_nil_error sampleDevice 7 0).1,
   (skip_always_returns_nil_error sampleDevice 7 0).2 rfl⟩

/-- C3 counterexample: at gain `3/8` the code issues a volume set of 37
(`int(gain*100)` truncates) while `round(g*100) = round 37.5 = 38`, so the
claim's `round(g*100)` is not what is issued. -/
theorem setGain_truncates_not_rounds :
    (sampleDevice.setGain (3/8) none).actions = [.set ("volume") (.int 37)] ∧
    round ((3/8 : ℚ) * 100) = 38 := by
  constructor
  · show [MpvAction.set ("volume") (.int (goTrunc ((3/8 : ℚ) * 100)))] = _
    norm_num [goTrunc]
    decide
  · norm_num [round_eq]

/-- C3 (amended): for gain `g ∈ [0,1]`, `SetGain(g)` issues a player volume
set of `⌊g*100⌋` (truncation, not rounding) and persists `g` as the
device's gain; the persistence happens regardless of whether the underlying
volume set call succeeded (its result `e` is arbitrary), and the command
returns a nil error. -/
theorem setGain_truncated_volume_and_persists (pd : SpeakerPlaybackDevice)
    (g : ℚ) (e : Option String) (h0 : 0 ≤ g) (h1 : g ≤ 1) :
    (pd.setGain g e).actions = [.set ("volume") (.int ⌊g * 100⌋)] ∧
    (pd.setGain g e).device.gain = g ∧
    (pd.setGain g e).err = none := by
  refine ⟨?_, rfl, rfl⟩
  have : goTrunc (g * 100) = ⌊g * 100⌋ :=
    goTrunc_eq_floor_of_nonneg _ (by positivity)
  simp [SpeakerPlaybackDevice.setGain, this]

/-- C3 witness: gain 1 with a failing volume set is still persisted and a
volume set of 100 is issued. -/
theorem setGain_truncated_volume_and_persists_witness :
    (sampleDevice.setGain 1 (some ("ipc write failed"))).actions
      = [.set ("volume") (.int ⌊(1 : ℚ) * 100⌋)] ∧
    (sampleDevice.setGain 1 (some ("ipc write failed"))).device.gain = 1 ∧
    (sampleDevice.setGain 1 (some ("ipc write failed"))).err = none :=
  setGain_truncated_volume_and_persists sampleDevice 1 (some ("ipc write failed"))
    zero_le_one le_rfl

/-- C2 counterexample: removing at the out-of-range index 5 of the sample
device leaves the device unchanged but returns a nil error — the
index-range error is only logged, not returned to the caller. -/
theorem remove_out_of_range_error_only_logged :
    (sampleDevice.remove 5 (.ok (.bool true))).err = none ∧
    (sampleDevice.remove 5 (.ok (.bool true))).device = sampleDevice :=
  ⟨rfl, rfl⟩

/-- C2 (amended): `Remove(i)` with `i ∈ [0, size)` removes exactly one
element and preserves the relative order of the rest; for `i` outside
`[0, size)` the queue is unchanged, and in both cases the command returns a
nil error — the index-range error is only logged, never returned. -/
theorem remove_behavior (pd : SpeakerPlaybackDevice) (index : Int)
    (pauseGet : Except String MpvValue) :
    (0 ≤ index → index < pd.playbackQueue.size →
      (pd.remove index pauseGet).device.playbackQueue.items
        = pd.playbackQueue.items.take index.toNat
          ++ pd.playbackQueue.items.drop (index.toNat + 1) ∧
      (pd.remove index pauseGet).device.playbackQueue.items.length + 1
        = pd.playbackQueue.items.length ∧
      (pd.remove index pauseGet).err = none) ∧
    (¬ (0 ≤ index ∧ index < pd.playbackQueue.size) →
      (pd.remove index pauseGet).device.playbackQueue = pd.playbackQueue ∧
      (pd.remove index pauseGet).err = none) := by
  have hform : pd.remove index pauseGet = pd.removeTail [] index ∨
      pd.remove index pauseGet
        = pd.removeTail [.set ("pause") (.bool true)] index := by
    unfold SpeakerPlaybackDevice.remove SpeakerPlaybackDevice.stop
    split
    · right; rfl
    · left; rfl
  have key : ∀ acts : List MpvAction,
      (0 ≤ index → index < pd.playbackQueue.size →
        (pd.removeTail acts index).device.playbackQueue.items
          = pd.playbackQueue.items.take index.toNat
            ++ pd.playbackQueue.items.drop (index.toNat + 1) ∧
        (pd.removeTail acts index).device.playbackQueue.items.length + 1
          = pd.playbackQueue.items.length ∧
        (pd.removeTail acts index).err = none) ∧
      (¬ (0 ≤ index ∧ index < pd.playbackQueue.size) →
        (pd.removeTail acts index).device.playbackQueue = pd.playbackQueue ∧
        (pd.removeTail acts index).err = none) := by
    intro acts
    constructor
    · intro h0 hlt
      have hlen : index.toNat < pd.playbackQueue.items.length := by
        simp only [Queue.size] at hlt; omega
      unfold SpeakerPlaybackDevice.removeTail
      rw [if_pos ⟨by omega, hlt⟩]
      refine ⟨?_, ?_, rfl⟩
      · simp [Queue.remove, List.eraseIdx_eq_take_drop_succ]
      · simp [Queue.remove, List.length_eraseIdx, hlen]
        omega
    · intro hn
      unfold SpeakerPlaybackDevice.removeTail
      rw [if_neg (by intro hc; exact hn ⟨by omega, hc.2⟩)]
      exact ⟨rfl, rfl⟩
  cases hform with
  | inl hf => rw [hf]; exact key []
  | inr hf => rw [hf]; exact key [.set ("pause") (.bool true)]

/-- C2 witness: removing the in-range index 1 from the sample device. -/
theorem remove_behavior_witness :
    (sampleDevice.remove 1 (.ok (.bool true))).device.playbackQueue.items
      = sampleDevice.playbackQueue.items.take (1 : Int).toNat
        ++ sampleDevice.playbackQueue.items.drop ((1 : Int).toNat + 1) ∧
    (sampleDevice.remove 1 (.ok (.bool true))).device.playbackQueue.items.length + 1
      = sampleDevice.playbackQueue.items.length ∧
    (sampleDevice.remove 1 (.ok (.bool true))).err = none :=
  (remove_behavior sampleDevice 1 (.ok (.bool true))).1 (by decide) (by decide)

/-- C6: `Add(ids)` resolves each id via the catalog in input order; when
every resolution succeeds it appends exactly `len(ids)` tracks to the queue
preserving order and returns a nil error; when some resolution fails it
returns that (first) error and leaves the device untouched — nothing is
appended. -/
theorem add_appends_or_aborts (catalog : String → Except String MediaFile)
    (pd : SpeakerPlaybackDevice) (ids : List String) :
    (∀ ts, resolveAll catalog ids = .ok ts →
      (pd.add catalog ids).device.playbackQueue.items
        = pd.playbackQueue.items ++ ts ∧
      ts.length = ids.length ∧
      (pd.add catalog ids).err = none) ∧
    (∀ e, resolveAll catalog ids = .error e →
      (pd.add catalog ids).device = pd ∧
      (pd.add catalog ids).err = some e) := by
  constructor
  · intro ts h
    have hl := resolveAll_ok_length catalog ids ts h
    cases ids with
    | nil =>
        simp only [resolveAll, Except.ok.injEq] at h
        refine ⟨?_, hl, rfl⟩
        simp [SpeakerPlaybackDevice.add, ← h]
    | cons i rest =>
        unfold SpeakerPlaybackDevice.add
        rw [if_neg (by simp), h]
        refine ⟨?_, hl, rfl⟩
        simp [Queue.add]
  · intro e h
    cases ids with
    | nil => simp [resolveAll] at h
    | cons i rest =>
        unfold SpeakerPlaybackDevice.add
        rw [if_neg (by simp), h]
        exact ⟨rfl, rfl⟩

/-- C6 witness: adding two resolvable ids to the sample device appends both
in order; adding a batch with an unknown id fails with its error and leaves
the device unchanged. -/
theorem add_appends_or_aborts_witness :
    ((sampleDevice.add sampleCatalog ["b", "a"]).device.playbackQueue.items
        = sampleDevice.playbackQueue.items ++ [trackB, trackA] ∧
      [trackB, trackA].length = ["b", "a"].length ∧
      (sampleDevice.add sampleCatalog ["b", "a"]).err = none) ∧
    ((sampleDevice.add sampleCatalog ["a", "zzz"]).device = sampleDevice ∧
      (sampleDevice.add sampleCatalog ["a", "zzz"]).err
        = some ("data not found")) :=
  ⟨(add_appends_or_aborts sampleCatalog sampleDevice ["b", "a"]).1
      [trackB, trackA] rfl,
   (add_appends_or_aborts sampleCatalog sampleDevice ["a", "zzz"]).2
      ("data not found") rfl⟩

/-- C7: when every id resolves, `Set(ids)` (a `Clear` followed by an `Add`)
leaves the queue holding exactly the resolved tracks of `ids` in order,
with the cursor reset to the start (index 0, or the `-1` empty sentinel for
an empty batch), and returns a nil error. -/
theorem set_replaces_queue_and_resets_index
    (catalog : String → Except String MediaFile) (pd : SpeakerPlaybackDevice)
    (ids : List String) (ts : List MediaFile)
    (h : resolveAll catalog ids = .ok ts) :
    (SpeakerPlaybackDevice.set catalog pd ids).device.playbackQueue.items = ts ∧
    (SpeakerPlaybackDevice.set catalog pd ids).device.playbackQueue.index
      = (if ts = [] then -1 else 0) ∧
    ts.length = ids.length ∧
    (SpeakerPlaybackDevice.set catalog pd ids).err = none := by
  have hlen := resolveAll_ok_length catalog ids ts h
  have hset : SpeakerPlaybackDevice.set catalog pd ids
      = { device := (SpeakerPlaybackDevice.add catalog
            { pd with playbackQueue := Queue.clear } ids).device
          actions := [MpvAction.set ("pause") (.bool true)]
            ++ (SpeakerPlaybackDevice.add catalog
                { pd with playbackQueue := Queue.clear } ids).actions
          err := (SpeakerPlaybackDevice.add catalog
            { pd with playbackQueue := Queue.clear } ids).err } := rfl
  rw [hset]
  cases ids with
  | nil =>
      simp only [resolveAll, Except.ok.injEq] at h
      refine ⟨?_, ?_, hlen, rfl⟩
      · simp [SpeakerPlaybackDevice.add, Queue.clear, ← h]
      · simp [SpeakerPlaybackDevice.add, Queue.clear, ← h]
  | cons i rest =>
      have hts : ts ≠ [] := by
        intro hc; rw [hc] at hlen; simp at hlen
      unfold SpeakerPlaybackDevice.add
      rw [if_neg (by simp), h]
      refine ⟨?_, ?_, hlen, rfl⟩
      · simp [Queue.add, Queue.clear]
      · simp [Queue.add, Queue.clear, hts]

/-- C7 witness: setting the sample device's queue to ids `["c", "a"]`. -/
theorem set_replaces_queue_and_resets_index_witness :
    (SpeakerPlaybackDevice.set sampleCatalog sampleDevice
        ["c", "a"]).device.playbackQueue.items = [trackC, trackA] ∧
    (SpeakerPlaybackDevice.set sampleCatalog sampleDevice
        ["c", "a"]).device.playbackQueue.index
      = (if [trackC, trackA] = ([] : List MediaFile) then -1 else 0) ∧
    ([trackC, trackA] : List MediaFile).length = ["c", "a"].length ∧
    (SpeakerPlaybackDevice.set sampleCatalog sampleDevice ["c", "a"]).err
      = none :=
  set_replaces_queue_and_resets_index sampleCatalog sampleDevice
    ["c", "a"] [trackC, trackA] rfl

/-- C8: the position query retries on the transient "property unavailable"
error with a backoff of retry-index milliseconds per retry, giving up with
position 0 once the retry count exceeds the fixed bound of 5 (so at most
five retries after the first query, with sleeps of 1..5 ms); any other
query error immediately yields position 0 instead of propagating. -/
theorem position_retry_policy (results : Nat → Except String MpvValue) :
    ((∀ k, results k = .error unavailableMsg) →
      position results = (0, [1, 2, 3, 4, 5])) ∧
    (∀ e, results 0 = .error e → e ≠ unavailableMsg →
      position results = (0, [])) := by
  constructor
  · intro h
    have step : ∀ rc : Nat, rc ≤ 4 →
        positionLoop results rc
          = ((positionLoop results (rc + 1)).1,
             (rc + 1) :: (positionLoop results (rc + 1)).2) := by
      intro rc hrc
      have hlt : ¬ 5 < rc + 1 := by omega
      rw [positionLoop.eq_def, h rc]
      simp [hlt]
    have last : positionLoop results 5 = (0, []) := by
      have hlt : 5 < 5 + 1 := by omega
      rw [positionLoop.eq_def, h 5]
      simp [hlt]
    rw [position, step 0 (by omega), step 1 (by omega), step 2 (by omega),
      step 3 (by omega), step 4 (by omega), last]
  · intro e h0 hne
    rw [position, positionLoop.eq_def, h0]
    simp [hne]

/-- C8 witness: a connection that always reports "property unavailable"
yields position 0 after backoffs of 1..5 ms; one that fails with a
different error yields position 0 immediately. -/
theorem position_retry_policy_witness :
    position (fun _ => .error unavailableMsg) = (0, [1, 2, 3, 4, 5]) ∧
    position (fun _ => .error ("socket closed")) = (0, []) :=
  ⟨(position_retry_policy (fun _ => .error unavailableMsg)).1 (fun _ => rfl),
   (position_retry_policy (fun _ => .error ("socket closed"))).2
     ("socket closed") rfl (by decide)⟩

/-- C9: player-binary resolution runs at most once per process. The first
`mpvCommand` call performs the lookup (the configured path when set, else
the bare name `mpv` with a `./mpv` retry on the `exec.ErrDot` ambiguous
relative-path condition); any later call — even under a changed
environment — returns the identical cached `(path, error)` pair and leaves
the state untouched, so a failure is permanent for the process lifetime. -/
theorem mpv_resolution_once_cached (env env2 : MpvLookupEnv) :
    ((mpvCommand env2 (mpvCommand env initialMpvOnceState).2).1
        = (mpvCommand env initialMpvOnceState).1 ∧
      (mpvCommand env2 (mpvCommand env initialMpvOnceState).2).2
        = (mpvCommand env initialMpvOnceState).2) ∧
    (mpvCommand env initialMpvOnceState).1 = mpvLookup env ∧
    (env.mpvPathConf ≠ "" →
      mpvLookup env = env.lookPath env.mpvPathConf) ∧
    (env.mpvPathConf = "" → (env.lookPath ("mpv")).2 ≠ some .errDot →
      mpvLookup env = env.lookPath ("mpv")) ∧
    (env.mpvPathConf = "" → (env.lookPath ("mpv")).2 = some .errDot →
      mpvLookup env = env.lookPath ("./mpv")) := by
  refine ⟨⟨?_, ?_⟩, ?_, ?_, ?_, ?_⟩
  · simp [mpvCommand, initialMpvOnceState]
  · simp [mpvCommand, initialMpvOnceState]
  · simp [mpvCommand, initialMpvOnceState]
  · intro h
    simp [mpvLookup, h]
  · intro h hne
    simp [mpvLookup, h, hne]
  · intro h he
    simp [mpvLookup, h, he]

/-- A lookup environment with no configured path where the bare name hits
the ambiguous-relative-path condition and the local retry succeeds. -/
def wLookupEnv : MpvLookupEnv :=
  { mpvPathConf := ""
    lookPath := fun s =>
      if s = "mpv" then ("", some .errDot)
      else if s = "./mpv" then ("./mpv", none)
      else ("", some (.notFound ("executable file not found"))) }

/-- C9 witness: under `wLookupEnv` the first call resolves via the `./mpv`
retry and the second call returns the cached pair. -/
theorem mpv_resolution_once_cached_witness :
    (mpvCommand wLookupEnv (mpvCommand wLookupEnv initialMpvOnceState).2).1
      = (mpvCommand wLookupEnv initialMpvOnceState).1 ∧
    (mpvCommand wLookupEnv initialMpvOnceState).1 = mpvLookup wLookupEnv ∧
    mpvLookup wLookupEnv = wLookupEnv.lookPath ("./mpv") :=
  ⟨((mpv_resolution_once_cached wLookupEnv wLookupEnv).1).1,
   (mpv_resolution_once_cached wLookupEnv wLookupEnv).2.1,
   (mpv_resolution_once_cached wLookupEnv wLookupEnv).2.2.2.2 rfl rfl⟩

/-- A socket that never appears makes every poll fail and the wait time
out. -/
theorem waitForSocketGo_never (statOk : Nat → Bool)
    (h : ∀ k, statOk k = false) :
    ∀ n k : Nat, waitForSocketGo statOk n k = some timeoutMsg
  | 0, k => by simp [waitForSocketGo, h k]
  | n + 1, k => by
      unfold waitForSocketGo
      rw [h k]
      simpa using waitForSocketGo_never statOk h n (k + 1)

/-- An environment whose player binary resolves and starts but whose
control socket never appears. -/
def timeoutEnv : BootstrapEnv :=
  { mpvResolve := ("/usr/bin/mpv", none)
    startErr := none
    statOk := fun _ => false
    maxPolls := 30
    connOpenErr := none }

/-- C1 counterexample: when the socket never appears within the timeout,
`OpenMpvAndConnection` does fail with the timeout error and yields no
connection — but `NewSpeakerPlaybackDevice` still produces a device object
(with a nil connection), because the constructor discards the bootstrap
error and has no failure path; the claim that no device object is produced
is false. -/
theorem bootstrap_timeout_still_constructs_device :
    OpenMpvAndConnection timeoutEnv "hw0" = .error timeoutMsg ∧
    NewSpeakerPlaybackDevice timeoutEnv "jukebox" "hw0"
      = { mpvConn := none, name := "jukebox", deviceName := "hw0"
          playbackQueue := Queue.new, gain := 1 } :=
  ⟨rfl, rfl⟩

/-- C1 (amended): if the binary resolves, the process starts, and the
socket never appears within the 3-second bootstrap timeout, then
`OpenMpvAndConnection` returns the timeout error and no connection; but
`NewSpeakerPlaybackDevice` discards that error and still returns a device
object whose connection is nil (fresh queue, gain 1). -/
theorem bootstrap_timeout_error_discarded_by_constructor
    (env : BootstrapEnv) (name deviceName : String)
    (hres : env.mpvResolve.2 = none) (hstart : env.startErr = none)
    (hsock : ∀ k, env.statOk k = false) :
    OpenMpvAndConnection env deviceName = .error timeoutMsg ∧
    NewSpeakerPlaybackDevice env name deviceName
      = { mpvConn := none, name := name, deviceName := deviceName
          playbackQueue := Queue.new, gain := 1 } := by
  have hwait : waitForSocket env.statOk env.maxPolls = some timeoutMsg :=
    waitForSocketGo_never env.statOk hsock env.maxPolls 0
  have hopen : OpenMpvAndConnection env deviceName = .error timeoutMsg := by
    unfold OpenMpvAndConnection
    rw [hres, hstart, hwait]
  refine ⟨hopen, ?_⟩
  unfold NewSpeakerPlaybackDevice
  rw [hopen]
  rfl

/-- C1 witness: the amended statement at the concrete timeout
environment. -/
theorem bootstrap_timeout_error_discarded_by_constructor_witness :
    OpenMpvAndConnection timeoutEnv "card1" = .error timeoutMsg ∧
    NewSpeakerPlaybackDevice timeoutEnv "dev" "card1"
      = { mpvConn := none, name := "dev", deviceName := "card1"
          playbackQueue := Queue.new, gain := 1 } :=
  bootstrap_timeout_error_discarded_by_constructor timeoutEnv
    "dev" "card1" rfl rfl (fun _ => rfl)

end Spec2Proof
